import Mathlib

/-!
Shallow embedding of the session-based authentication app
(`src/app.js`, the role-bearing variant, and `src/unnamed/part_000`,
the earlier role-less variant) and proofs about its auth/authorization
core: signup, login, logout, the `isLoggedIn` / `isAdmin` gates, and
the promote/demote role mutations.

External collaborators are modelled as the spec directs:
* the Credential Store is a `List` of user records, `findOne` being a
  first-match scan (MongoDB `findOne`), `updateOne` a first-match
  field update;
* the Session Store is an association list from session ids to the
  session's identity snapshot; TTL expiry is modelled as absence;
* bcrypt is modelled as an opaque injective tagging function with the
  matching `compare`, per the spec's "opaque one-way function with a
  verify counterpart";
* Joi validation is modelled check-for-check from the schemas in the
  source, with `Joi.string().email()` modelled by `emailOk` (structural
  well-formedness plus the RFC length cap Joi's email rule enforces).

Handlers are modelled as pure functions from (store, current session,
request fields) to an outcome record holding the new store, the new
session value, and the ordered list of response sends the handler
performs.  Where the source falls through after a send (the `app.js`
login handler), the outcome records every send attempted and whether a
thrown field access aborted the handler, statement for statement.
-/

namespace Assign02

/-- Model of bcrypt.hash with cost 10: an opaque, injective one-way tag.
The stored value is never the plaintext (it is 7 characters longer). -/
def bcryptHash (p : String) : String := "$2b$10$" ++ p

/-- Model of bcrypt.compare: verifies a plaintext against a stored hash. -/
def bcryptCompare (p h : String) : Bool := h == bcryptHash p

/-- Splits a character list at its unique `@` into local part and
domain; `none` when there is no `@` or more than one. -/
def emailParts (cs : List Char) : Option (List Char × List Char) :=
  match cs with
  | [] => none
  | x :: rest =>
    if x = '@' then
      if rest.contains '@' then none else some ([], rest)
    else
      match emailParts rest with
      | some (l, d) => some (x :: l, d)
      | none => none

/-- Model of Joi.string().email(): structurally well-formed (one `@`
splitting a non-empty local part from a non-empty domain containing a
dot) and within the RFC length cap Joi's email rule enforces. -/
def emailOk (s : String) : Bool :=
  decide (s.length ≤ 254) &&
  (match emailParts s.data with
   | some (localPart, domain) =>
       !localPart.isEmpty && !domain.isEmpty && domain.contains '.'
   | none => false)

/-- User record of the `app.js` variant: documents inserted by
`signupPost` carry `name`, `email`, `password` (the bcrypt hash) and
`user_type`. -/
structure UserRecord where
  name : String
  email : String
  password : String
  user_type : String
deriving DecidableEq, Repr

/-- Session identity snapshot of the `app.js` variant
(`req.session.user = { name, email, user_type }`). -/
structure SessionUser where
  name : String
  email : String
  user_type : String
deriving DecidableEq, Repr

/-- User record of the `part_000` variant: no `user_type` field exists
in that file. -/
structure UserRecordB where
  name : String
  email : String
  password : String
deriving DecidableEq, Repr

/-- Session identity snapshot of the `part_000` variant
(`req.session.user = { name, email }`). -/
structure SessionUserB where
  name : String
  email : String
deriving DecidableEq, Repr

/-- MongoDB `findOne({ email })` on the users collection: first match. -/
def findOne (store : List UserRecord) (email : String) : Option UserRecord :=
  store.find? (fun u => u.email == email)

/-- MongoDB `findOne({ email })` for the `part_000` variant. -/
def findOneB (store : List UserRecordB) (email : String) : Option UserRecordB :=
  store.find? (fun u => u.email == email)

/-- One response send performed by a handler: a 200 render of a view
(with the optional inline message passed to it), a status render, a
redirect, or a plain status+body send. -/
inductive Send where
  | render (view : String) (message : Option String)
  | renderStatus (code : Nat) (view : String)
  | redirect (path : String)
  | status (code : Nat) (body : String)
deriving DecidableEq, Repr

/-- Outcome of the `app.js` loginPost: the ordered sends attempted, the
session value after the handler, and whether the handler aborted with a
thrown field access (reading `user.name` of a null lookup). -/
structure LoginOutcomeA where
  sends : List Send
  sessionUser : Option SessionUser
  threw : Bool
deriving DecidableEq, Repr

/-- Outcome of the `part_000` loginPost (that variant early-returns, so
no throw flag is needed). -/
structure LoginOutcomeB where
  sends : List Send
  sessionUser : Option SessionUserB
deriving DecidableEq, Repr

/-- Joi schema of both loginPost variants: email must be a valid email
and is required, password is required.  Returns the first failing
check's message (Joi aborts early), `none` when the body validates. -/
def validateLogin (email password : String) : Option String :=
  if email.isEmpty then some "email is not allowed to be empty"
  else if !emailOk email then some "email must be a valid email"
  else if password.isEmpty then some "password is not allowed to be empty"
  else none

/-- The `app.js` loginPost (src/app.js lines 103-121), statement for
statement.  On a failed lookup or a failed compare it renders the
invalid-credentials view but does NOT return: with no matching record
the subsequent `user.name` access throws before the session assignment;
with a matching record and a wrong password execution falls through to
the session assignment and the redirect. -/
def loginPost_app (store : List UserRecord) (sess : Option SessionUser)
    (email password : String) : LoginOutcomeA :=
  match validateLogin email password with
  | some msg => ⟨[Send.status 400 msg], sess, false⟩
  | none =>
    match findOne store email with
    | none =>
        ⟨[Send.render "login" (some "Invalid email/password combination")], sess, true⟩
    | some u =>
        if bcryptCompare password u.password then
          ⟨[Send.redirect "/"], some ⟨u.name, u.email, u.user_type⟩, false⟩
        else
          ⟨[Send.render "login" (some "Invalid email/password combination"),
            Send.redirect "/"],
           some ⟨u.name, u.email, u.user_type⟩, false⟩

/-- The `part_000` loginPost (src/unnamed/part_000 lines 181-215): both
failure causes early-return the same render; the session is set only
when the password verifies. -/
def loginPost_b (store : List UserRecordB) (sess : Option SessionUserB)
    (email password : String) : LoginOutcomeB :=
  match validateLogin email password with
  | some msg => ⟨[Send.status 400 msg], sess⟩
  | none =>
    match findOneB store email with
    | none => ⟨[Send.render "login" (some "Invalid email/password combination")], sess⟩
    | some u =>
        if bcryptCompare password u.password then
          ⟨[Send.redirect "/"], some ⟨u.name, u.email⟩⟩
        else
          ⟨[Send.render "login" (some "Invalid email/password combination")], sess⟩

/-- Joi schema of the `app.js` signupPost: name required, max 255;
email must be a valid email, required; password min 6, required.
Checks run in schema key order, aborting at the first failure. -/
def validateSignup_app (name email password : String) : Option String :=
  if name.isEmpty then some "name is not allowed to be empty"
  else if 255 < name.length then some "name length must be at most 255"
  else if email.isEmpty then some "email is not allowed to be empty"
  else if !emailOk email then some "email must be a valid email"
  else if password.isEmpty then some "password is not allowed to be empty"
  else if password.length < 6 then some "password length must be at least 6"
  else none

/-- Joi schema of the `part_000` signupPost: as the `app.js` one plus
`.max(255)` on email and on password. -/
def validateSignup_b (name email password : String) : Option String :=
  if name.isEmpty then some "name is not allowed to be empty"
  else if 255 < name.length then some "name length must be at most 255"
  else if email.isEmpty then some "email is not allowed to be empty"
  else if !emailOk email then some "email must be a valid email"
  else if 255 < email.length then some "email length must be at most 255"
  else if password.isEmpty then some "password is not allowed to be empty"
  else if password.length < 6 then some "password length must be at least 6"
  else if 255 < password.length then some "password length must be at most 255"
  else none

/-- Outcome of the `app.js` signupPost: the store after the handler,
the session value after the handler, and the sends. -/
structure SignupOutcomeA where
  store : List UserRecord
  sessionUser : Option SessionUser
  sends : List Send
deriving DecidableEq, Repr

/-- Outcome of the `part_000` signupPost. -/
structure SignupOutcomeB where
  store : List UserRecordB
  sessionUser : Option SessionUserB
  sends : List Send
deriving DecidableEq, Repr

/-- The `app.js` signupPost (src/app.js lines 71-97): validate, reject
a duplicate email, else insert `{ name, email, password: hash,
user_type: 'user' }`, set the session from the new record's fields and
redirect to /members. -/
def signupPost_app (store : List UserRecord) (sess : Option SessionUser)
    (name email password : String) : SignupOutcomeA :=
  match validateSignup_app name email password with
  | some msg => ⟨store, sess, [Send.status 400 msg]⟩
  | none =>
    match findOne store email with
    | some _ => ⟨store, sess, [Send.status 400 "Email already exists"]⟩
    | none =>
        let newUser : UserRecord := ⟨name, email, bcryptHash password, "user"⟩
        ⟨store ++ [newUser],
         some ⟨newUser.name, newUser.email, newUser.user_type⟩,
         [Send.redirect "/members"]⟩

/-- The `part_000` signupPost (src/unnamed/part_000 lines 136-175):
as above but the inserted record has no `user_type` field and the
session snapshot is `{ name, email }`. -/
def signupPost_b (store : List UserRecordB) (sess : Option SessionUserB)
    (name email password : String) : SignupOutcomeB :=
  match validateSignup_b name email password with
  | some msg => ⟨store, sess, [Send.status 400 msg]⟩
  | none =>
    match findOneB store email with
    | some _ => ⟨store, sess, [Send.status 400 "Email already exists"]⟩
    | none =>
        let newUser : UserRecordB := ⟨name, email, bcryptHash password⟩
        ⟨store ++ [newUser], some ⟨name, email⟩, [Send.redirect "/members"]⟩

/-- The `isLoggedIn` middleware (src/app.js lines 39-42): pass iff a
session user exists. -/
def isLoggedIn (s : Option SessionUser) : Bool := s.isSome

/-- The `isAdmin` middleware (src/app.js lines 44-47): pass iff a
session user exists and its `user_type` equals `'admin'`. -/
def isAdmin (s : Option SessionUser) : Bool :=
  match s with
  | some u => u.user_type == "admin"
  | none => false

/-- The authorize gate as the routes compose it: with no required role
it is `isLoggedIn`; with a required role it is the `isAdmin` pattern
(`req.session.user && req.session.user.user_type === r`) at that role. -/
def authorize (s : Option SessionUser) (requiredRole : Option String) : Bool :=
  match requiredRole with
  | none => isLoggedIn s
  | some r =>
    match s with
    | some u => u.user_type == r
    | none => false

/-- Full server-side state of the `app.js` variant: the users
collection and the session store (session id to identity snapshot). -/
structure AppState where
  users : List UserRecord
  sessions : List (String × SessionUser)
deriving DecidableEq, Repr

/-- MongoDB `updateOne({ email }, { $set: { user_type: role } })`:
rewrites the `user_type` of the FIRST record matching `email` only;
matching nothing is a silent no-op. -/
def updateOneRole (users : List UserRecord) (email role : String) : List UserRecord :=
  match users with
  | [] => []
  | u :: rest =>
      if u.email == email then { u with user_type := role } :: rest
      else u :: updateOneRole rest email role

/-- Body shared by promote (src/app.js lines 139-143) and demote
(lines 145-149): update the target's role, redirect to /admin. -/
def setRole (st : AppState) (targetEmail role : String) : AppState × Send :=
  ({ st with users := updateOneRole st.users targetEmail role },
   Send.redirect "/admin")

/-- The gated /promote and /demote pipeline as the routes install it:
`isLoggedIn, isAdmin, promote|demote`. -/
def setRoleRoute (actor : Option SessionUser) (st : AppState)
    (targetEmail role : String) : AppState × Send :=
  if isLoggedIn actor then
    if isAdmin actor then setRole st targetEmail role
    else (st, Send.renderStatus 403 "403")
  else (st, Send.redirect "/login")

/-- POST /promote: setRole at role `'admin'`. -/
def promoteRoute (actor : Option SessionUser) (st : AppState)
    (targetEmail : String) : AppState × Send :=
  setRoleRoute actor st targetEmail "admin"

/-- POST /demote: setRole at role `'user'`. -/
def demoteRoute (actor : Option SessionUser) (st : AppState)
    (targetEmail : String) : AppState × Send :=
  setRoleRoute actor st targetEmail "user"

/-- Session Store lookup by session id. -/
def lookupSession (sid : String) (sessions : List (String × SessionUser)) :
    Option SessionUser :=
  (sessions.find? (fun p => p.1 == sid)).map Prod.snd

/-- Session Store destroy (`req.session.destroy`): removes the session
with the given id if present; removing an absent id changes nothing. -/
def destroySession (sid : String) (sessions : List (String × SessionUser)) :
    List (String × SessionUser) :=
  sessions.filter (fun p => p.1 != sid)

/-- The logout handler (src/app.js lines 123-125): destroy the session,
then redirect to / unconditionally — the callback never inspects an
error for the caller. -/
def logout (sid : String) (sessions : List (String × SessionUser)) :
    List (String × SessionUser) × Send :=
  (destroySession sid sessions, Send.redirect "/")

/-- The gated GET /admin pipeline (`isLoggedIn, isAdmin, admin`,
src/app.js lines 133-137, 167): when both gates pass, the handler runs
`find().toArray()` with no projection and renders the admin view with
that full list; the third component is the records payload handed to
the view (`none` when the gates reject). -/
def adminRoute (actor : Option SessionUser) (st : AppState) :
    AppState × Send × Option (List UserRecord) :=
  if isLoggedIn actor then
    if isAdmin actor then (st, Send.render "admin" none, some st.users)
    else (st, Send.renderStatus 403 "403", none)
  else (st, Send.redirect "/login", none)

/-- Uniqueness invariant of the Credential Store: no two records share
an email. -/
def emailsUnique (store : List UserRecord) : Prop :=
  store.Pairwise (fun u v => u.email ≠ v.email)

/-- The modelled hash is never the plaintext: it is 7 characters longer. -/
theorem bcryptHash_ne (p : String) : bcryptHash p ≠ p := by
  intro h
  have h2 := congrArg String.length h
  rw [bcryptHash, String.length_append] at h2
  have h3 : ("$2b$10$" : String).length = 7 := rfl
  rw [h3] at h2
  omega

/-- A well-formed email is within the length cap. -/
theorem emailOk_length {s : String} (h : emailOk s = true) : s.length ≤ 254 := by
  rw [emailOk, Bool.and_eq_true] at h
  exact of_decide_eq_true h.1

/-- Any violation of the `app.js` signup constraints makes its Joi
validation fail. -/
theorem validateSignup_app_isSome (name email password : String)
    (h : name = "" ∨ 255 < name.length ∨ emailOk email = false ∨
         254 < email.length ∨ password.length < 6) :
    (validateSignup_app name email password).isSome = true := by
  rw [validateSignup_app]
  split_ifs with h1 h2 h3 h4 h5 h6
  · rfl
  · rfl
  · rfl
  · rfl
  · rfl
  · rfl
  · exfalso
    rcases h with h | h | h | h | h
    · exact absurd (by rw [h]; rfl) h1
    · exact h2 h
    · rw [Bool.not_eq_true] at h4
      simp [h] at h4
    · have he : emailOk email = true := by
        cases hb : emailOk email with
        | false => rw [hb] at h4; exact absurd rfl h4
        | true => rfl
      exact absurd (emailOk_length he) (by omega)
    · exact h6 h

/-- Any violation of the `part_000` signup constraints makes its Joi
validation fail. -/
theorem validateSignup_b_isSome (name email password : String)
    (h : name = "" ∨ 255 < name.length ∨ emailOk email = false ∨
         254 < email.length ∨ password.length < 6) :
    (validateSignup_b name email password).isSome = true := by
  rw [validateSignup_b]
  split_ifs with h1 h2 h3 h4 h5 h6 h7 h8
  · rfl
  · rfl
  · rfl
  · rfl
  · rfl
  · rfl
  · rfl
  · rfl
  · exfalso
    rcases h with h | h | h | h | h
    · exact absurd (by rw [h]; rfl) h1
    · exact h2 h
    · rw [Bool.not_eq_true] at h4
      simp [h] at h4
    · have he : emailOk email = true := by
        cases hb : emailOk email with
        | false => rw [hb] at h4; exact absurd rfl h4
        | true => rfl
      exact absurd (emailOk_length he) (by omega)
    · exact h7 h

/-- C3: a successful register in the role-bearing variant (`app.js`)
inserts exactly one new record whose role is `user` and whose stored
password is the hash of the submitted password — never the plaintext —
and establishes a session whose identity snapshot (name, email, role)
is exactly that of the just-created record.  (The `part_000` variant
predates roles: its records and sessions have no role field at all.) -/
theorem C3_register_success_role_and_identity :
    ∀ (store : List UserRecord) (sess : Option SessionUser)
      (name email password : String),
      (signupPost_app store sess name email password).sends =
        [Send.redirect "/members"] →
      ∃ rec : UserRecord,
        (signupPost_app store sess name email password).store = store ++ [rec]
        ∧ rec.user_type = "user"
        ∧ rec.name = name
        ∧ rec.email = email
        ∧ rec.password = bcryptHash password
        ∧ rec.password ≠ password
        ∧ (signupPost_app store sess name email password).sessionUser =
            some ⟨rec.name, rec.email, rec.user_type⟩ := by
  intro store sess name email password h
  cases hv : validateSignup_app name email password with
  | some msg => simp [signupPost_app, hv] at h
  | none =>
    cases hf : findOne store email with
    | some u => simp [signupPost_app, hv, hf] at h
    | none =>
      refine ⟨⟨name, email, bcryptHash password, "user"⟩, ?_, rfl, rfl, rfl, rfl,
        bcryptHash_ne password, ?_⟩
      · simp [signupPost_app, hv, hf]
      · simp [signupPost_app, hv, hf]

/-- Witness for C3: a concrete successful signup on the empty store. -/
theorem C3_register_success_role_and_identity_witness :
    (signupPost_app [] none "Alice" "alice@x.com" "secret1").sends =
      [Send.redirect "/members"]
    ∧ ∃ rec : UserRecord,
        (signupPost_app [] none "Alice" "alice@x.com" "secret1").store = [] ++ [rec]
        ∧ rec.user_type = "user"
        ∧ rec.name = "Alice"
        ∧ rec.email = "alice@x.com"
        ∧ rec.password = bcryptHash "secret1"
        ∧ rec.password ≠ "secret1"
        ∧ (signupPost_app [] none "Alice" "alice@x.com" "secret1").sessionUser =
            some ⟨rec.name, rec.email, rec.user_type⟩ :=
  ⟨by decide,
   C3_register_success_role_and_identity [] none "Alice" "alice@x.com" "secret1"
     (by decide)⟩

/-- C7: a register call violating the constraints — name empty or over
255, email malformed or over the length cap, or password under 6 —
fails with a 400 ValidationError in both variants, inserting no record
and establishing no session. -/
theorem C7_register_invalid_input_rejected :
    ∀ (store : List UserRecord) (sess : Option SessionUser)
      (storeB : List UserRecordB) (sessB : Option SessionUserB)
      (name email password : String),
      (name = "" ∨ 255 < name.length ∨ emailOk email = false ∨
       254 < email.length ∨ password.length < 6) →
      (∃ msg, signupPost_app store sess name email password =
        ⟨store, sess, [Send.status 400 msg]⟩)
      ∧ (∃ msg, signupPost_b storeB sessB name email password =
          ⟨storeB, sessB, [Send.status 400 msg]⟩) := by
  intro store sess storeB sessB name email password h
  constructor
  · obtain ⟨msg, hm⟩ := Option.isSome_iff_exists.mp (validateSignup_app_isSome name email password h)
    exact ⟨msg, by simp [signupPost_app, hm]⟩
  · obtain ⟨msg, hm⟩ := Option.isSome_iff_exists.mp (validateSignup_b_isSome name email password h)
    exact ⟨msg, by simp [signupPost_b, hm]⟩

/-- Witness for C7: a five-character password is rejected by both
variants on the empty store. -/
theorem C7_register_invalid_input_rejected_witness :
    ("short".length < 6)
    ∧ (∃ msg, signupPost_app [] none "Bob" "bob@x.com" "short" =
        ⟨[], none, [Send.status 400 msg]⟩) :=
  ⟨by decide,
   (C7_register_invalid_input_rejected [] none [] none "Bob" "bob@x.com" "short"
     (Or.inr (Or.inr (Or.inr (Or.inr (by decide)))))).1⟩

/-- C8: a register call whose email already has a record fails with the
duplicate-account 400 and changes neither the store nor the session, in
both variants; and any signup outcome preserves email uniqueness. -/
theorem C8_register_duplicate_email_rejected :
    ∀ (store : List UserRecord) (sess : Option SessionUser)
      (storeB : List UserRecordB) (sessB : Option SessionUserB)
      (name email password : String),
      ((∃ rec, findOne store email = some rec) →
        (signupPost_app store sess name email password).store = store
        ∧ (signupPost_app store sess name email password).sessionUser = sess
        ∧ (validateSignup_app name email password = none →
            (signupPost_app store sess name email password).sends =
              [Send.status 400 "Email already exists"]))
      ∧ ((∃ rec, findOneB storeB email = some rec) →
          (signupPost_b storeB sessB name email password).store = storeB
          ∧ (signupPost_b storeB sessB name email password).sessionUser = sessB
          ∧ (validateSignup_b name email password = none →
              (signupPost_b storeB sessB name email password).sends =
                [Send.status 400 "Email already exists"]))
      ∧ (emailsUnique store →
          emailsUnique (signupPost_app store sess name email password).store) := by
  intro store sess storeB sessB name email password
  refine ⟨?_, ?_, ?_⟩
  · rintro ⟨rec, hf⟩
    refine ⟨?_, ?_, fun hn => by simp [signupPost_app, hn, hf]⟩
    · cases hv : validateSignup_app name email password with
      | some msg => simp [signupPost_app, hv]
      | none => simp [signupPost_app, hv, hf]
    · cases hv : validateSignup_app name email password with
      | some msg => simp [signupPost_app, hv]
      | none => simp [signupPost_app, hv, hf]
  · rintro ⟨rec, hf⟩
    refine ⟨?_, ?_, fun hn => by simp [signupPost_b, hn, hf]⟩
    · cases hv : validateSignup_b name email password with
      | some msg => simp [signupPost_b, hv]
      | none => simp [signupPost_b, hv, hf]
    · cases hv : validateSignup_b name email password with
      | some msg => simp [signupPost_b, hv]
      | none => simp [signupPost_b, hv, hf]
  · intro hu
    cases hv : validateSignup_app name email password with
    | some msg => simpa [signupPost_app, hv] using hu
    | none =>
      cases hf : findOne store email with
      | some u => simpa [signupPost_app, hv, hf] using hu
      | none =>
        have hnone : ∀ u ∈ store, u.email ≠ email := by
          intro u hu'
          have := List.find?_eq_none.mp hf u hu'
          simpa using this
        simp only [signupPost_app, hv, hf]
        rw [emailsUnique, List.pairwise_append]
        exact ⟨hu, List.pairwise_singleton _ _,
          fun a ha b hb => by
            simp only [List.mem_singleton] at hb
            subst hb
            exact hnone a ha⟩

/-- Witness for C8: the duplicate branch and the uniqueness invariant
at a concrete one-record store. -/
theorem C8_register_duplicate_email_rejected_witness :
    (∃ rec, findOne [⟨"Alice", "alice@x.com", bcryptHash "secret1", "user"⟩]
      "alice@x.com" = some rec)
    ∧ ((signupPost_app [⟨"Alice", "alice@x.com", bcryptHash "secret1", "user"⟩]
          none "Eve" "alice@x.com" "hunter22").store =
        [⟨"Alice", "alice@x.com", bcryptHash "secret1", "user"⟩]
      ∧ (signupPost_app [⟨"Alice", "alice@x.com", bcryptHash "secret1", "user"⟩]
          none "Eve" "alice@x.com" "hunter22").sessionUser = none
      ∧ (validateSignup_app "Eve" "alice@x.com" "hunter22" = none →
          (signupPost_app [⟨"Alice", "alice@x.com", bcryptHash "secret1", "user"⟩]
            none "Eve" "alice@x.com" "hunter22").sends =
            [Send.status 400 "Email already exists"])) :=
  ⟨⟨⟨"Alice", "alice@x.com", bcryptHash "secret1", "user"⟩, by decide⟩,
   (C8_register_duplicate_email_rejected
      [⟨"Alice", "alice@x.com", bcryptHash "secret1", "user"⟩] none [] none
      "Eve" "alice@x.com" "hunter22").1
     ⟨⟨"Alice", "alice@x.com", bcryptHash "secret1", "user"⟩, by decide⟩⟩

/-- C1: the claim says a failing authenticate establishes no session and
leaves state unchanged. In `app.js` the wrong-password path renders the
invalid-credentials view but then falls through and establishes a
session with the matched record's identity snapshot, as this concrete
run shows: the stored hash does not verify against "wrong", yet the
outcome's session is Alice's snapshot and a redirect is attempted. -/
theorem C1_loginPost_app_wrong_password_establishes_session :
    bcryptCompare "wrong" (bcryptHash "secret1") = false
    ∧ loginPost_app [⟨"Alice", "alice@x.com", bcryptHash "secret1", "user"⟩] none
        "alice@x.com" "wrong" =
      ⟨[Send.render "login" (some "Invalid email/password combination"),
        Send.redirect "/"],
       some ⟨"Alice", "alice@x.com", "user"⟩, false⟩ := by
  decide

/-- C2: the claim says wrong-password and no-such-user failures are
observably identical. In `part_000` they are (same single render, same
message, no session either way), but in `app.js` the wrong-password
call establishes a session and attempts a redirect while the
unknown-email call throws with no session, so the two outcomes differ
observably at this concrete input. -/
theorem C2_login_failure_modes_distinguishable_in_app :
    (loginPost_app [⟨"Alice", "alice@x.com", bcryptHash "secret1", "user"⟩] none
        "alice@x.com" "wrong").sessionUser = some ⟨"Alice", "alice@x.com", "user"⟩
    ∧ (loginPost_app [⟨"Alice", "alice@x.com", bcryptHash "secret1", "user"⟩] none
        "bob@x.com" "anything").sessionUser = none
    ∧ (loginPost_app [⟨"Alice", "alice@x.com", bcryptHash "secret1", "user"⟩] none
        "bob@x.com" "anything").threw = true
    ∧ loginPost_app [⟨"Alice", "alice@x.com", bcryptHash "secret1", "user"⟩] none
        "alice@x.com" "wrong" ≠
      loginPost_app [⟨"Alice", "alice@x.com", bcryptHash "secret1", "user"⟩] none
        "bob@x.com" "anything"
    ∧ loginPost_b [⟨"Alice", "alice@x.com", bcryptHash "secret1"⟩] none
        "alice@x.com" "wrong" =
      loginPost_b [⟨"Alice", "alice@x.com", bcryptHash "secret1"⟩] none
        "bob@x.com" "anything"
    ∧ loginPost_b [⟨"Alice", "alice@x.com", bcryptHash "secret1"⟩] none
        "alice@x.com" "wrong" =
      ⟨[Send.render "login" (some "Invalid email/password combination")], none⟩ := by
  decide

/-- C4: authorize allows iff a session exists and the required role is
unset or equals the session's embedded role; a user-role session is
always denied the admin gate, an admin-role session always passes it,
and no session is always denied. -/
theorem C4_authorize_characterization :
    ∀ (s : Option SessionUser) (r : Option String),
      ((authorize s r = true) ↔
        (∃ u, s = some u ∧ (r = none ∨ r = some u.user_type)))
    ∧ (∀ u : SessionUser, u.user_type = "user" →
        authorize (some u) (some "admin") = false)
    ∧ (∀ u : SessionUser, u.user_type = "admin" →
        authorize (some u) (some "admin") = true)
    ∧ (authorize none r = false) := by
  intro s r
  refine ⟨⟨?_, ?_⟩, ?_, ?_, ?_⟩
  · intro h
    cases s with
    | none => cases r <;> simp [authorize, isLoggedIn] at h
    | some u =>
      cases r with
      | none => exact ⟨u, rfl, Or.inl rfl⟩
      | some rr =>
        simp only [authorize, beq_iff_eq] at h
        exact ⟨u, rfl, Or.inr (by rw [h])⟩
  · rintro ⟨u, rfl, h | h⟩
    · subst h; simp [authorize, isLoggedIn]
    · subst h; simp [authorize]
  · intro u hu
    simp [authorize, hu]
  · intro u hu
    simp [authorize, hu]
  · cases r <;> simp [authorize, isLoggedIn]

/-- Witness for C4 at a concrete user-role session. -/
theorem C4_authorize_characterization_witness :
    (⟨"Alice", "alice@x.com", "user"⟩ : SessionUser).user_type = "user"
    ∧ authorize (some ⟨"Alice", "alice@x.com", "user"⟩) (some "admin") = false :=
  ⟨rfl,
   (C4_authorize_characterization (some ⟨"Alice", "alice@x.com", "user"⟩)
      (some "admin")).2.1 ⟨"Alice", "alice@x.com", "user"⟩ rfl⟩

/-- The updateOne model keeps every record's non-role fields in place,
and changes a role only on a record matching the target email. -/
theorem updateOneRole_forall₂ (users : List UserRecord) (email role : String) :
    List.Forall₂
      (fun u u' =>
        u'.name = u.name ∧ u'.email = u.email ∧ u'.password = u.password
        ∧ (u'.user_type = u.user_type ∨ (u.email = email ∧ u'.user_type = role)))
      users (updateOneRole users email role) := by
  induction users with
  | nil => exact List.Forall₂.nil
  | cons u rest ih =>
    rw [updateOneRole]
    by_cases h : u.email = email
    · rw [if_pos (by simp [h])]
      exact List.Forall₂.cons ⟨rfl, rfl, rfl, Or.inr ⟨h, rfl⟩⟩
        (List.forall₂_same.mpr fun x _ => ⟨rfl, rfl, rfl, Or.inl rfl⟩)
    · rw [if_neg (by simp [h])]
      exact List.Forall₂.cons ⟨rfl, rfl, rfl, Or.inl rfl⟩ ih

/-- Looking the target up after the updateOne model finds the same
record with only its role rewritten. -/
theorem findOne_updateOneRole (users : List UserRecord) (email role : String) :
    findOne (updateOneRole users email role) email =
      (findOne users email).map (fun u => { u with user_type := role }) := by
  induction users with
  | nil => rfl
  | cons u rest ih =>
    rw [updateOneRole]
    by_cases h : u.email = email
    · rw [if_pos (by simp [h])]
      simp only [findOne]
      rw [List.find?_cons_of_pos _ (by simp [h]),
        List.find?_cons_of_pos _ (by simp [h])]
      rfl
    · rw [if_neg (by simp [h])]
      simp only [findOne] at ih ⊢
      rw [List.find?_cons_of_neg _ (by simp [h]),
        List.find?_cons_of_neg _ (by simp [h])]
      exact ih

/-- C5: a setRole performed through the admin gate leaves the session
store untouched (so every already-issued session, the target's
included, keeps its original identity snapshot), preserves every
record's name, email and password positionally, changes a role only on
a record matching the target email, and a fresh authenticate for the
target afterwards observes the new role in its session snapshot. -/
theorem C5_setRole_frame :
    ∀ (actor : Option SessionUser) (st : AppState) (target role : String),
      isAdmin actor = true →
      ((setRoleRoute actor st target role).1.sessions = st.sessions)
      ∧ List.Forall₂
          (fun u u' =>
            u'.name = u.name ∧ u'.email = u.email ∧ u'.password = u.password
            ∧ (u'.user_type = u.user_type ∨ (u.email = target ∧ u'.user_type = role)))
          st.users (setRoleRoute actor st target role).1.users
      ∧ (∀ sid, lookupSession sid (setRoleRoute actor st target role).1.sessions =
            lookupSession sid st.sessions)
      ∧ (∀ pw rec, findOne st.users target = some rec →
            validateLogin target pw = none →
            bcryptCompare pw rec.password = true →
            (loginPost_app (setRoleRoute actor st target role).1.users
                none target pw).sessionUser =
              some ⟨rec.name, rec.email, role⟩) := by
  intro actor st target role hA
  cases actor with
  | none => exact absurd hA (by simp [isAdmin])
  | some a =>
    have hroute : setRoleRoute (some a) st target role = setRole st target role := by
      simp [setRoleRoute, isLoggedIn, hA]
    rw [hroute]
    refine ⟨rfl, ?_, fun _ => rfl, ?_⟩
    · exact updateOneRole_forall₂ st.users target role
    · intro pw rec hf hv hc
      simp only [setRole, loginPost_app, hv]
      rw [findOne_updateOneRole, hf]
      simp [hc]

/-- Witness for C5: promoting Alice with an admin session leaves her
existing session's snapshot alone while a fresh login sees `admin`. -/
theorem C5_setRole_frame_witness :
    isAdmin (some ⟨"Root", "root@x.com", "admin"⟩) = true
    ∧ findOne [⟨"Alice", "alice@x.com", bcryptHash "secret1", "user"⟩] "alice@x.com" =
        some ⟨"Alice", "alice@x.com", bcryptHash "secret1", "user"⟩
    ∧ validateLogin "alice@x.com" "secret1" = none
    ∧ bcryptCompare "secret1" (bcryptHash "secret1") = true
    ∧ (loginPost_app
          (setRoleRoute (some ⟨"Root", "root@x.com", "admin"⟩)
            ⟨[⟨"Alice", "alice@x.com", bcryptHash "secret1", "user"⟩],
              [("sid1", ⟨"Alice", "alice@x.com", "user"⟩)]⟩
            "alice@x.com" "admin").1.users
          none "alice@x.com" "secret1").sessionUser =
        some ⟨"Alice", "alice@x.com", "admin"⟩ :=
  ⟨by decide, by decide, by decide, by decide,
   (C5_setRole_frame (some ⟨"Root", "root@x.com", "admin"⟩)
      ⟨[⟨"Alice", "alice@x.com", bcryptHash "secret1", "user"⟩],
        [("sid1", ⟨"Alice", "alice@x.com", "user"⟩)]⟩
      "alice@x.com" "admin" (by decide)).2.2.2
     "secret1" ⟨"Alice", "alice@x.com", bcryptHash "secret1", "user"⟩
     (by decide) (by decide) (by decide)⟩

/-- C6: the claim says setRole on an unknown target fails with
NotFoundError. The code's promote matches nothing, silently leaves the
store unchanged and redirects to /admin as a success, as this concrete
run with an admin actor and a target email absent from the store shows. -/
theorem C6_promote_missing_target_silently_succeeds :
    promoteRoute (some ⟨"Root", "root@x.com", "admin"⟩)
      ⟨[⟨"Alice", "alice@x.com", bcryptHash "secret1", "user"⟩], []⟩
      "ghost@x.com" =
    (⟨[⟨"Alice", "alice@x.com", bcryptHash "secret1", "user"⟩], []⟩,
     Send.redirect "/admin") := by
  decide

/-- C9: logout always answers with the success redirect, destroying is
idempotent (so destroying an absent or already-destroyed session is a
no-op, not an error), and after a destroy the session id resolves to no
session, so every authorize through it denies. -/
theorem C9_destroySession_idempotent_and_denies :
    ∀ (sid : String) (sessions : List (String × SessionUser)) (r : Option String),
      (logout sid sessions).2 = Send.redirect "/"
    ∧ destroySession sid (destroySession sid sessions) = destroySession sid sessions
    ∧ lookupSession sid (destroySession sid sessions) = none
    ∧ authorize (lookupSession sid (destroySession sid sessions)) r = false := by
  intro sid sessions r
  have hlook : lookupSession sid (destroySession sid sessions) = none := by
    induction sessions with
    | nil => rfl
    | cons p rest ih =>
      by_cases h : p.1 = sid <;>
        simp_all [destroySession, lookupSession, h]
  refine ⟨rfl, ?_, hlook, ?_⟩
  · simp [destroySession, List.filter_filter]
  · rw [hlook]; cases r <;> simp [authorize, isLoggedIn]

/-- C10: whenever the admin gate passes, the admin handler renders the
admin view with the complete, unprojected users collection — every
stored record, its password hash field included, is handed to the view. -/
theorem C10_admin_view_receives_full_records :
    ∀ (actor : Option SessionUser) (st : AppState),
      isAdmin actor = true →
      (adminRoute actor st).2.2 = some st.users
      ∧ (adminRoute actor st).2.1 = Send.render "admin" none
      ∧ ∀ u ∈ st.users,
          ∃ v ∈ ((adminRoute actor st).2.2).getD [],
            v = u ∧ v.password = u.password := by
  intro actor st h
  cases actor with
  | none => simp [isAdmin] at h
  | some u =>
    have hl : isLoggedIn (some u) = true := rfl
    refine ⟨by simp [adminRoute, hl, h], by simp [adminRoute, hl, h], ?_⟩
    intro v hv
    exact ⟨v, by simp [adminRoute, hl, h, hv], rfl, rfl⟩

/-- Witness for C10 at a concrete admin session and one-record store. -/
theorem C10_admin_view_receives_full_records_witness :
    isAdmin (some ⟨"Root", "root@x.com", "admin"⟩) = true
    ∧ (adminRoute (some ⟨"Root", "root@x.com", "admin"⟩)
        ⟨[⟨"Alice", "alice@x.com", bcryptHash "secret1", "user"⟩], []⟩).2.2 =
      some [⟨"Alice", "alice@x.com", bcryptHash "secret1", "user"⟩] :=
  ⟨by decide,
   (C10_admin_view_receives_full_records (some ⟨"Root", "root@x.com", "admin"⟩)
      ⟨[⟨"Alice", "alice@x.com", bcryptHash "secret1", "user"⟩], []⟩
      (by decide)).1⟩

end Assign02
